import Mathlib

/-!
Verification of the actor-critic agent implemented in `ch8/deep_ac_agent.py`.

The numeric code is embedded shallowly: float tensors become lists of
rationals (or flat-index functions into rationals for the numpy image
arrays), and the transcendental softplus transform of the policy spread is
modelled over the reals.  Network evaluations (critic values, log
probabilities) are inputs to the embedded functions, mirroring how the
Python methods consume the outputs of `self.actor_critic`.
-/

set_option autoImplicit false

namespace DeepACAgent

/-! ### n-step return (`DeepActorCriticAgent.calculate_n_step_return`) -/

/--
The body of the `for r_t in n_step_rewards[::-1]` loop of
`calculate_n_step_return`: the rewards are consumed in reversed order,
`g_t_n` is updated to `r_t + gamma * g_t_n`, and each updated value is
inserted at the left of the accumulator `g_t_n_s`.
-/
def n_step_loop (γ : ℚ) : List ℚ → ℚ → List ℚ → List ℚ
  | [], _, g_t_n_s => g_t_n_s
  | r_t :: rest, g_t_n, g_t_n_s =>
    n_step_loop γ rest (r_t + γ * g_t_n) ((r_t + γ * g_t_n) :: g_t_n_s)

/--
`DeepActorCriticAgent.calculate_n_step_return(n_step_rewards, final_state, done, gamma)`.
`v_final` stands for the critic value `self.actor_critic(self.preproc_obs(final_state))[2]`
computed under `torch.no_grad()`, and `γ` for `self.gamma` (the `gamma`
argument of the Python method is unused by its body).  The bootstrap is
`0 if done else v_final`, and the loop above produces the result list.
-/
def calculate_n_step_return (γ : ℚ) (n_step_rewards : List ℚ) (v_final : ℚ)
    (done : Bool) : List ℚ :=
  n_step_loop γ n_step_rewards.reverse (if done then 0 else v_final) []

/--
The backward recurrence stated by the spec for the n-step return:
`G_n = g_end` (where `g_end = 0` if terminal, else `V(final_state)`) and
`G_t = r_t + γ * G_{t+1}` for `t = n-1` down to `0`.
-/
def nStepReturnsSpec (γ g_end : ℚ) : List ℚ → List ℚ
  | [] => []
  | r :: rest =>
    (r + γ * (nStepReturnsSpec γ g_end rest).headD g_end) ::
      nStepReturnsSpec γ g_end rest

/-- The spec's discounted sum `r_0 + γ r_1 + γ² r_2 + ...` of a reward list. -/
def discountedSum (γ : ℚ) : List ℚ → ℚ
  | [] => 0
  | r :: rest => r + γ * discountedSum γ rest

/-! ### One-step TD actor-critic update (`DeepActorCriticAgent.learn_td_ac`) -/

/-- The scalar quantities computed by one call of `learn_td_ac`. -/
structure TDStep where
  td_target : ℚ
  td_err : ℚ
  loss : ℚ

/--
`DeepActorCriticAgent.learn_td_ac(s_t, a_t, r, s_tp1, done)`.  `policy_loss`
stands for `self.policy(self.preproc_obs(s_t)).log_prob(a_t)`, `v_st` for the
critic value `self.value` populated by that first policy query, and `v_stp1`
for the value populated by the second query at `s_tp1`.  All quantities are
scalars for the single transition, so `torch.mean` of `policy_loss + td_err.pow(2)`
is that scalar itself.
-/
def learn_td_ac (γ r v_st v_stp1 policy_loss : ℚ) : TDStep :=
  { td_target := r + γ * v_stp1
    td_err := (r + γ * v_stp1) - v_st
    loss := -(policy_loss + ((r + γ * v_stp1) - v_st) ^ 2) }

/-! ### Torch tensor model: action postprocessing and the policy mean -/

/-- A torch tensor: a shape and row-major flattened data. -/
structure TorchTensor where
  shape : List ℕ
  data : List ℚ
deriving DecidableEq

/-- `torch.Tensor.squeeze()`: removes every dimension of size 1. -/
def TorchTensor.squeeze (t : TorchTensor) : TorchTensor :=
  { t with shape := t.shape.filter (fun d => d != 1) }

/-- `torch.Tensor.unsqueeze(0)`: prepends a dimension of size 1. -/
def TorchTensor.unsqueeze0 (t : TorchTensor) : TorchTensor :=
  { t with shape := 1 :: t.shape }

/-- `torch.clamp(x, lo, hi)` on a scalar: `min (max x lo) hi`. -/
def clamp (x lo hi : ℚ) : ℚ := min (max x lo) hi

/--
In-place slice assignment `t[i] = f(t[i])` with `f` elementwise: for a
tensor of rank at least 1, `t[i]` is the contiguous block of
`stride = (shape.drop 1).prod` flattened elements starting at `i * stride`.
-/
def TorchTensor.setSlice (t : TorchTensor) (i : ℕ) (f : ℚ → ℚ) : TorchTensor :=
  let stride := (t.shape.drop 1).prod
  { t with
    data := ((List.range t.data.length).zip t.data).map
      (fun p => if i * stride ≤ p.1 ∧ p.1 < (i + 1) * stride then f p.2 else p.2) }

/--
`DeepActorCriticAgent.process_action(action)`: squeeze, promote a rank-0
scalar to a 1-element vector, then clamp `action[1]` to `[0, 1]` when
`len(action.shape) > 1` and set `action[2]` to its clamp to `[0, 1]` plus
`1e-4` when `len(action.shape) > 2`.  Note that `len(action.shape)` in the
source is the tensor RANK (number of dimensions), not the number of action
components.  The `.to(torch.device("cpu"))` move is a no-op here.
-/
def process_action (action : TorchTensor) : TorchTensor :=
  let action := action.squeeze
  let action := if action.shape.length == 0 then action.unsqueeze0 else action
  let action :=
    if action.shape.length > 1 then action.setSlice 1 (fun x => clamp x 0 1) else action
  let action :=
    if action.shape.length > 2 then action.setSlice 2 (fun x => clamp x 0 1 + 1 / 10000)
    else action
  action

/--
The mean pipeline of `multi_variate_gaussian_policy`:
`mu = torch.clamp(mu, -1, 1).squeeze()`, followed by the scalar-to-vector
promotion `mu.unsqueeze_(0)` when the clamped mean has rank 0.
-/
def multi_variate_gaussian_mu (mu : TorchTensor) : TorchTensor :=
  let mu := { mu with data := mu.data.map (fun x => clamp x (-1) 1) }
  let mu := mu.squeeze
  if mu.shape.length == 0 then mu.unsqueeze0 else mu

/-! ### Policy spread and distribution construction (real-valued) -/

/-- `torch.nn.Softplus()` on a scalar: `softplus x = log (1 + exp x)`. -/
noncomputable def softplus (x : ℝ) : ℝ := Real.log (1 + Real.exp x)

/--
The spread pipeline of `multi_variate_gaussian_policy`, elementwise:
`sigma = torch.nn.Softplus()(sigma).squeeze() + 1e-7`.
-/
noncomputable def multi_variate_gaussian_sigma (x : ℝ) : ℝ := softplus x + 1 / 10 ^ 7

/-- A diagonal-covariance multivariate Gaussian, kept as its parameters. -/
structure MultivariateNormal where
  mean : List ℝ
  cov_diag : List ℝ

/--
The validity condition `torch.distributions.MultivariateNormal` checks when
`validate_args=True`: the mean and the covariance diagonal have matching
sizes and every diagonal entry is strictly positive (a diagonal matrix is
positive definite exactly when its diagonal is).
-/
def mvnValid (mean cov_diag : List ℝ) : Prop :=
  mean.length = cov_diag.length ∧ ∀ d ∈ cov_diag, 0 < d

open Classical in
/--
Model of the `MultivariateNormal(mean, cov, validate_args)` constructor of
the torch distributions library: with `validate_args = true` it raises
(here: returns `none`) instead of building a distribution from an invalid
mean/covariance pair; with validation off it accepts anything.
-/
noncomputable def MultivariateNormal_mk (mean cov_diag : List ℝ)
    (validate_args : Bool) : Option MultivariateNormal :=
  if validate_args then
    if mvnValid mean cov_diag then some { mean := mean, cov_diag := cov_diag } else none
  else some { mean := mean, cov_diag := cov_diag }

/--
Line 147 of the source:
`MultivariateNormal(self.mu, torch.eye(self.action_shape) * self.sigma, validate_args=True)`.
`torch.eye(k) * sigma` is the diagonal matrix whose diagonal is `sigma`, so
the covariance diagonal passed in is the transformed spread vector, and
validation is on.  `mu` is the clamped mean and `sigma_raw` the raw network
spread output.
-/
noncomputable def policy_action_distribution (mu sigma_raw : List ℝ) :
    Option MultivariateNormal :=
  MultivariateNormal_mk mu (sigma_raw.map multi_variate_gaussian_sigma) true

/-! ### Numpy/torch array model: observation preprocessing (`preproc_obs`) -/

/--
A Python array-like value as `preproc_obs` handles it: a shape, the
row-major flat buffer as an index function, and whether the value is a
torch tensor (`is_tensor = true`) or a numpy ndarray (`is_tensor = false`).
The distinction matters because `torch.from_numpy` accepts only ndarrays
and raises a `TypeError` on anything else — in particular on the torch
tensor `preproc_obs` itself returns.
-/
structure PyArray where
  is_tensor : Bool
  shape : List ℕ
  flat : ℕ → ℚ

/-- Total number of elements of an array. -/
def PyArray.size (a : PyArray) : ℕ := a.shape.prod

/--
`np.reshape(a, newshape)`: the same flat row-major buffer under a new
shape.  It dispatches to the argument's own `reshape`, so an ndarray stays
an ndarray and a torch tensor stays a torch tensor.
-/
def np_reshape (a : PyArray) (newshape : List ℕ) : PyArray :=
  { a with shape := newshape }

/--
`np.resize(a, newshape)`: a freshly allocated ndarray holding the flat
buffer repeated cyclically (or truncated) to fill the new total size; an
empty source fills with zeros.  The result is an ndarray whatever the
input was.
-/
def np_resize (a : PyArray) (newshape : List ℕ) : PyArray :=
  { is_tensor := false, shape := newshape,
    flat := fun i => if a.size = 0 then 0 else a.flat (i % a.size) }

/--
`torch.from_numpy(obs).unsqueeze(0).float()` (line 156 of the source):
`torch.from_numpy` raises a `TypeError` (here: `none`) unless its argument
is a numpy ndarray; on an ndarray it wraps the same buffer as a torch
tensor, `unsqueeze(0)` prepends a batch dimension of size 1, and the float
conversion is the identity in this rational model.
-/
def torch_from_numpy_unsqueeze_float (a : PyArray) : Option PyArray :=
  if a.is_tensor then none
  else some { is_tensor := true, shape := 1 :: a.shape, flat := a.flat }

/--
`DeepActorCriticAgent.preproc_obs(obs)`: for a 3-D input, reshape the
buffer to `(obs.shape[2], obs.shape[1], obs.shape[0])` and `np.resize` it
to `(3, 84, 84)` (producing an ndarray); then
`torch.from_numpy(obs).unsqueeze(0).float()` builds the batched tensor, or
raises (returns `none`) when the value reaching it is already a torch
tensor — which happens exactly when a non-3-D tensor, such as the output
of a previous `preproc_obs` call, is passed in.
-/
def preproc_obs (obs : PyArray) : Option PyArray :=
  torch_from_numpy_unsqueeze_float
    (if obs.shape.length == 3 then
      np_resize
        (np_reshape obs [obs.shape.getD 2 0, obs.shape.getD 1 0, obs.shape.getD 0 0])
        [3, 84, 84]
    else obs)

/--
The spec's canonical channel-first axis reordering of an `H × W × C` image:
`out[c][w][h] = in[h][w][c]`, i.e. a transpose along axes `(2, 1, 0)`,
yielding a reordered ndarray.
-/
def transpose_channel_first (a : PyArray) : PyArray :=
  { is_tensor := false,
    shape := [a.shape.getD 2 0, a.shape.getD 1 0, a.shape.getD 0 0],
    flat := fun i =>
      let W := a.shape.getD 1 0
      let H := a.shape.getD 0 0
      let C := a.shape.getD 2 0
      let c := i / (W * H)
      let w := (i % (W * H)) / H
      let h := (i % (W * H)) % H
      a.flat (h * (W * C) + w * C + c) }

/-- A concrete 84 × 84 × 3 ndarray whose flat pixel at index `i` has value `i`. -/
def obs84 : PyArray :=
  { is_tensor := false, shape := [84, 84, 3], flat := fun i => (i : ℚ) }

/-! ### The n-step training loop (`DeepActorCriticAgent.run` / `learn`) -/

/--
The buffer-relevant state of the agent during `run`: the transition buffer
`self.trajectory` (transitions identified by the step counter at which
`get_action` appended them), the reward buffer `self.rewards`, the
per-episode `step_num`, plus two instrumentation fields: `fired` records,
per environment step, whether `learn` was invoked, and `learn_calls`
records the `(trajectory, rewards)` buffers each `learn` call consumed.
-/
structure RunState where
  trajectory : List ℕ
  rewards : List ℚ
  step_num : ℕ
  fired : List Bool
  learn_calls : List (List ℕ × List ℚ)
deriving DecidableEq

/--
`DeepActorCriticAgent.learn(n_th_observation, done)` as it affects the
agent's buffers: it reads `self.rewards` and `self.trajectory` (recorded
here as the arguments of the call) and performs an optimizer step; it does
not clear or reset either buffer.
-/
def learn (s : RunState) : RunState :=
  { s with learn_calls := s.learn_calls ++ [(s.trajectory, s.rewards)] }

/--
The inner `while not done` loop of `run` for one episode, driven by the
environment's per-step `(reward, done)` outcomes.  Per iteration, in source
order: `get_action` appends a transition to `self.trajectory`, the reward is
appended to `self.rewards`, `step_num` is incremented, and `learn` is called
iff `step_num >= n_step_learning_step_thresh or done`.
-/
def run_inner (thresh : ℕ) : List (ℚ × Bool) → RunState → RunState
  | [], s => s
  | (reward, done) :: rest, s =>
    let s1 : RunState :=
      { s with
        trajectory := s.trajectory ++ [s.step_num],
        rewards := s.rewards ++ [reward],
        step_num := s.step_num + 1 }
    let fire : Bool := decide (thresh ≤ s1.step_num) || done
    let s2 := if fire then learn s1 else s1
    let s3 : RunState := { s2 with fired := s2.fired ++ [fire] }
    if done then s3 else run_inner thresh rest s3

/-- One episode of `run`, starting from fresh buffers and `step_num = 0`. -/
def run_episode (thresh : ℕ) (outcomes : List (ℚ × Bool)) : RunState :=
  run_inner thresh outcomes
    { trajectory := [], rewards := [], step_num := 0, fired := [], learn_calls := [] }

/--
The closed-form firing pattern of the code's n-step loop: at the episode's
step number `n + 1` (so `n` prior steps happened), `learn` fires iff
`thresh ≤ n + 1` or that step is terminal; the loop stops at the first
terminal outcome.
-/
def firedSpec (thresh : ℕ) : ℕ → List (ℚ × Bool) → List Bool
  | _, [] => []
  | n, (_, done) :: rest =>
    (decide (thresh ≤ n + 1) || done) ::
      (if done then [] else firedSpec thresh (n + 1) rest)

/--
The trigger pattern asserted by the claim for an episode of `n` steps:
a learning update fires exactly when the accumulated step count first
reaches the threshold or the episode terminates, and at no other step.
-/
def claimedTriggerPattern (thresh n : ℕ) : List Bool :=
  (List.range n).map (fun i => (i + 1 == thresh) || (i + 1 == n))

/-! ### Lemmas about the n-step return -/

lemma nStepReturnsSpec_length (γ g_end : ℚ) (rs : List ℚ) :
    (nStepReturnsSpec γ g_end rs).length = rs.length := by
  induction rs with
  | nil => rfl
  | cons r rest ih => simp [nStepReturnsSpec, ih]

lemma nStepReturnsSpec_headD (γ g_end : ℚ) (rs : List ℚ) :
    (nStepReturnsSpec γ g_end rs).headD g_end =
      discountedSum γ rs + γ ^ rs.length * g_end := by
  induction rs with
  | nil => simp [nStepReturnsSpec, discountedSum]
  | cons r rest ih =>
    simp only [nStepReturnsSpec, List.headD_cons, discountedSum, List.length_cons]
    rw [ih]
    ring

lemma nStepReturnsSpec_append_singleton (γ g r : ℚ) (xs : List ℚ) :
    nStepReturnsSpec γ g (xs ++ [r]) =
      nStepReturnsSpec γ (r + γ * g) xs ++ [r + γ * g] := by
  induction xs with
  | nil => simp [nStepReturnsSpec]
  | cons x xs ih =>
    have hhead : (nStepReturnsSpec γ g (xs ++ [r])).headD g =
        (nStepReturnsSpec γ (r + γ * g) xs).headD (r + γ * g) := by
      rw [ih]
      cases xs with
      | nil => simp [nStepReturnsSpec]
      | cons y ys => simp [nStepReturnsSpec]
    show (x + γ * (nStepReturnsSpec γ g (xs ++ [r])).headD g) ::
          nStepReturnsSpec γ g (xs ++ [r]) =
        (x + γ * (nStepReturnsSpec γ (r + γ * g) xs).headD (r + γ * g)) ::
          (nStepReturnsSpec γ (r + γ * g) xs ++ [r + γ * g])
    rw [hhead, ih]

lemma n_step_loop_eq_spec (γ : ℚ) (xs : List ℚ) :
    ∀ (g : ℚ) (acc : List ℚ),
      n_step_loop γ xs g acc = nStepReturnsSpec γ g xs.reverse ++ acc := by
  induction xs with
  | nil => intro g acc; simp [n_step_loop, nStepReturnsSpec]
  | cons r rest ih =>
    intro g acc
    simp only [n_step_loop, ih, List.reverse_cons, nStepReturnsSpec_append_singleton,
      List.append_assoc, List.singleton_append]

/-- The loop of `calculate_n_step_return` implements the spec recurrence. -/
lemma calculate_n_step_return_eq_spec (γ : ℚ) (rs : List ℚ) (v : ℚ) (done : Bool) :
    calculate_n_step_return γ rs v done =
      nStepReturnsSpec γ (if done then 0 else v) rs := by
  unfold calculate_n_step_return
  rw [n_step_loop_eq_spec, List.reverse_reverse, List.append_nil]

lemma nStepReturnsSpec_getD (γ g_end : ℚ) (rs : List ℚ) :
    ∀ t : ℕ, t < rs.length →
      (nStepReturnsSpec γ g_end rs).getD t 0 =
        discountedSum γ (rs.drop t) + γ ^ (rs.length - t) * g_end := by
  induction rs with
  | nil => intro t ht; exact absurd ht (Nat.not_lt_zero t)
  | cons r rest ih =>
    intro t ht
    cases t with
    | zero =>
      simp only [nStepReturnsSpec, List.getD_cons_zero, List.drop_zero,
        discountedSum, List.length_cons, Nat.sub_zero]
      rw [nStepReturnsSpec_headD]
      ring
    | succ t =>
      simp only [nStepReturnsSpec, List.getD_cons_succ, List.drop_succ_cons,
        List.length_cons, Nat.succ_sub_succ]
      exact ih t (Nat.lt_of_succ_lt_succ ht)

lemma drop_length_sub_one {α : Type} (d : α) (l : List α) (h : 0 < l.length) :
    l.drop (l.length - 1) = [l.getD (l.length - 1) d] := by
  induction l with
  | nil => exact absurd h (by simp)
  | cons x xs ih =>
    cases xs with
    | nil => rfl
    | cons y ys =>
      have h2 : 0 < (y :: ys).length := by simp
      have := ih h2
      simpa [List.length_cons, Nat.succ_sub_one] using this

/-! ### Lemmas about the run loop -/

lemma fired_if_learn (b : Bool) (s : RunState) :
    (if b then learn s else s).fired = s.fired := by cases b <;> rfl

lemma step_num_if_learn (b : Bool) (s : RunState) :
    (if b then learn s else s).step_num = s.step_num := by cases b <;> rfl

lemma run_inner_fired (thresh : ℕ) (outcomes : List (ℚ × Bool)) :
    ∀ s : RunState, (run_inner thresh outcomes s).fired =
      s.fired ++ firedSpec thresh s.step_num outcomes := by
  induction outcomes with
  | nil => intro s; simp [run_inner, firedSpec]
  | cons p rest ih =>
    intro s
    obtain ⟨reward, done⟩ := p
    cases done with
    | true => simp [run_inner, firedSpec, learn]
    | false =>
      simp only [run_inner, firedSpec, Bool.or_false, if_neg Bool.false_ne_true]
      rw [ih]
      simp [learn, apply_ite RunState.fired, apply_ite RunState.step_num]

/-! ### Other helper lemmas -/

lemma softplus_pos (x : ℝ) : 0 < softplus x := by
  unfold softplus
  apply Real.log_pos
  linarith [Real.exp_pos x]

/-! ### Claim theorems -/

/--
Claim C1: for every reward list, terminal flag, discount and bootstrap
value, `calculate_n_step_return` returns the sequence of the backward
recurrence `G_n = 0` if terminal else `V(final_state)`,
`G_t = r_t + γ G_{t+1}`; when terminal each `G_t` is the discounted sum of
the remaining rewards (so `G_{n-1} = r_{n-1}` exactly), and when not
terminal the last return is `r_{n-1} + γ V(final_state)`.
-/
theorem C1_n_step_return_recurrence (γ v : ℚ) (rs : List ℚ) (done : Bool) :
    calculate_n_step_return γ rs v done =
        nStepReturnsSpec γ (if done then 0 else v) rs ∧
    (done = true → ∀ t : ℕ, t < rs.length →
        (calculate_n_step_return γ rs v done).getD t 0 =
          discountedSum γ (rs.drop t)) ∧
    (done = false → 0 < rs.length →
        (calculate_n_step_return γ rs v done).getD (rs.length - 1) 0 =
          rs.getD (rs.length - 1) 0 + γ * v) := by
  refine ⟨calculate_n_step_return_eq_spec γ rs v done, ?_, ?_⟩
  · rintro rfl t ht
    rw [calculate_n_step_return_eq_spec]
    simp only [if_true]
    rw [nStepReturnsSpec_getD γ 0 rs t ht]
    ring
  · rintro rfl hlen
    rw [calculate_n_step_return_eq_spec]
    have hlt : rs.length - 1 < rs.length := by omega
    simp only [Bool.false_eq_true, if_false]
    rw [nStepReturnsSpec_getD γ v rs (rs.length - 1) hlt]
    rw [drop_length_sub_one (0 : ℚ) rs hlen]
    have h1 : rs.length - (rs.length - 1) = 1 := by omega
    rw [h1]
    simp [discountedSum]

/-- Concrete instance of claim C1: rewards `[1, 1, 1]`, `γ = 1/2`, terminal. -/
theorem C1_n_step_return_recurrence_witness :
    calculate_n_step_return (1/2) [1, 1, 1] 0 true = [7/4, 3/2, 1] ∧
    (calculate_n_step_return (1/2) [1, 1, 1] 0 true).getD 0 0 =
      discountedSum (1/2) (([1, 1, 1] : List ℚ).drop 0) :=
  ⟨by norm_num [calculate_n_step_return, n_step_loop],
   (C1_n_step_return_recurrence (1/2) 0 [1, 1, 1] true).2.1 rfl 0 (by decide)⟩

/--
Claim C2: `learn_td_ac` computes `td_target = r + γ V(s_{t+1})`,
`td_error = td_target − V(s_t)` and `loss = −mean(log_prob + td_error²)`;
with `r = 1`, `γ = 0.99`, `V(s_t) = 0.5`, `V(s_{t+1}) = 0.6` the target is
`1.594 = 797/500` and the error `1.094 = 547/500`.
-/
theorem C2_learn_td_ac_equations (γ r v_st v_stp1 policy_loss : ℚ) :
    (learn_td_ac γ r v_st v_stp1 policy_loss).td_target = r + γ * v_stp1 ∧
    (learn_td_ac γ r v_st v_stp1 policy_loss).td_err =
      (r + γ * v_stp1) - v_st ∧
    (learn_td_ac γ r v_st v_stp1 policy_loss).loss =
      -(policy_loss + ((r + γ * v_stp1) - v_st) ^ 2) ∧
    (learn_td_ac (99/100) 1 (1/2) (3/5) policy_loss).td_target = 797/500 ∧
    (learn_td_ac (99/100) 1 (1/2) (3/5) policy_loss).td_err = 547/500 := by
  refine ⟨rfl, rfl, rfl, ?_, ?_⟩ <;> norm_num [learn_td_ac]

/--
Claim C3 is violated by the code: `process_action` tests the tensor rank
(`len(action.shape)`), not the number of action components, and a sampled
action is always a rank-1 vector after `squeeze`, so neither clamp ever
executes.  A 1-D action of any length is returned unchanged; in particular
`[0.5, -0.2, 1.5]` stays `[0.5, -0.2, 1.5]` instead of the claimed
`[0.5, 0.0, 1.0 + 1e-4]`.
-/
theorem C3_process_action_clamps_never_fire :
    (∀ xs : List ℚ,
      (process_action { shape := [xs.length], data := xs }).data = xs) ∧
    process_action { shape := [3], data := [1/2, -1/5, 3/2] } =
      { shape := [3], data := [1/2, -1/5, 3/2] } ∧
    (process_action { shape := [3], data := [1/2, -1/5, 3/2] }).data ≠
      [1/2, 0, 1 + 1/10000] := by
  refine ⟨?_, rfl, by
    norm_num [process_action, TorchTensor.squeeze, TorchTensor.unsqueeze0,
      TorchTensor.setSlice]⟩
  intro xs
  by_cases h : xs.length = 1
  · simp [process_action, TorchTensor.squeeze, TorchTensor.unsqueeze0, h]
  · simp [process_action, TorchTensor.squeeze, TorchTensor.unsqueeze0, h]

/--
Claim C4 is violated by the code: `learn` never clears `self.rewards` or
`self.trajectory`, so with threshold 1 and a two-step episode with rewards
`[1, 2]` the second `learn` call consumes the whole history
`([s0, s1], [1, 2])` rather than only `([s1], [2])`, and both buffers still
hold everything after the episode.
-/
theorem C4_run_buffers_never_cleared :
    (run_episode 1 [(1, false), (2, true)]).learn_calls =
        [([0], [1]), ([0, 1], [1, 2])] ∧
    (run_episode 1 [(1, false), (2, true)]).rewards = [1, 2] ∧
    (run_episode 1 [(1, false), (2, true)]).trajectory = [0, 1] ∧
    (([0, 1], [1, 2]) : List ℕ × List ℚ) ≠ (([1], [2]) : List ℕ × List ℚ) := by
  decide

/--
Claim C5 is violated by the code: for a 3-D observation, `np.reshape` only
relabels the row-major buffer under the new shape — it does not reorder the
axes — and `np.resize` repeats/truncates the buffer rather than resizing
spatially.  On an 84 × 84 × 3 input (where the spec's spatial resize is the
identity, so the spec content is exactly the axis-reordered input) the code
keeps flat index 1 equal to input pixel 1, while the channel-first
transpose puts input pixel 252 there.  The output shape `(1, 3, 84, 84)` is
as claimed.
-/
theorem C5_preproc_obs_not_axis_reordered :
    (preproc_obs obs84).map PyArray.shape = some [1, 3, 84, 84] ∧
    (preproc_obs obs84).map (fun t => t.flat 1) = some 1 ∧
    (transpose_channel_first obs84).flat 1 = 252 ∧
    (1 : ℚ) ≠ 252 := by
  refine ⟨rfl, by decide, by decide, by norm_num⟩

/--
Claim C6 is false: `preproc_obs` is not idempotent on an already-canonical
84 × 84 × 3 input.  The first application succeeds and returns a torch
tensor, but the second application reaches `torch.from_numpy` with that
torch tensor (its 4-D shape skips the 3-D branch) and raises a
`TypeError` (`none` here), so applying `preproc_obs` twice does not yield
the same tensor as applying it once — it yields no tensor at all.
-/
theorem C6_preproc_obs_not_idempotent :
    (preproc_obs obs84).bind preproc_obs = none ∧
    (preproc_obs obs84).isSome = true ∧
    (preproc_obs obs84).bind preproc_obs ≠ preproc_obs obs84 := by
  refine ⟨rfl, rfl, ?_⟩
  intro hEq
  have h1 : (preproc_obs obs84).bind preproc_obs = none := rfl
  rw [hEq] at h1
  have h2 : (preproc_obs obs84).isSome = true := rfl
  rw [h1] at h2
  simp at h2

/--
Claim C6 (amended): `preproc_obs` is not idempotent on already-canonical
84 × 84 × 3 ndarray inputs: the first application returns a torch tensor,
and a second application fails with a `TypeError` at `torch.from_numpy`
(which requires a numpy ndarray), so applying it twice raises an error
instead of returning the once-preprocessed tensor.
-/
theorem C6_preproc_obs_second_application_fails (obs : PyArray)
    (h : obs.shape = [84, 84, 3]) :
    (preproc_obs obs).isSome = true ∧
    (preproc_obs obs).bind preproc_obs = none := by
  have h1 : preproc_obs obs =
      some { is_tensor := true, shape := [1, 3, 84, 84],
             flat := (np_resize (np_reshape obs
               [obs.shape.getD 2 0, obs.shape.getD 1 0, obs.shape.getD 0 0])
               [3, 84, 84]).flat } := by
    unfold preproc_obs torch_from_numpy_unsqueeze_float
    rw [h]
    rfl
  rw [h1]
  exact ⟨rfl, rfl⟩

/-- Concrete instance of the amended claim C6 at the image `obs84`. -/
theorem C6_preproc_obs_second_application_fails_witness :
    (preproc_obs obs84).isSome = true ∧
    (preproc_obs obs84).bind preproc_obs = none :=
  C6_preproc_obs_second_application_fails obs84 rfl

/--
Claim C7: every spread passed into distribution construction is strictly
greater than `1e-7` (softplus plus the `1e-7` floor), the wrapper
constructs the distribution with validation on, and validated construction
fails (returns `none`) exactly on a non-positive spread or mismatched
mean/covariance shapes; with matching shapes the wrapper's construction
always succeeds.
-/
theorem C7_sigma_positive_and_validated (mu sigma_raw : List ℝ) :
    (∀ s ∈ sigma_raw.map multi_variate_gaussian_sigma, 1 / 10 ^ 7 < s) ∧
    (∀ d : MultivariateNormal, policy_action_distribution mu sigma_raw = some d →
        mvnValid mu d.cov_diag) ∧
    (MultivariateNormal_mk mu (sigma_raw.map multi_variate_gaussian_sigma) true = none ↔
        ¬ mvnValid mu (sigma_raw.map multi_variate_gaussian_sigma)) ∧
    (mu.length = sigma_raw.length →
        (policy_action_distribution mu sigma_raw).isSome = true) := by
  have hpos : ∀ s ∈ sigma_raw.map multi_variate_gaussian_sigma, 1 / 10 ^ 7 < s := by
    intro s hs
    obtain ⟨x, hx, rfl⟩ := List.mem_map.mp hs
    have := softplus_pos x
    unfold multi_variate_gaussian_sigma
    linarith
  refine ⟨hpos, ?_, ?_, ?_⟩
  · intro d hd
    by_cases hv : mvnValid mu (sigma_raw.map multi_variate_gaussian_sigma)
    · unfold policy_action_distribution MultivariateNormal_mk at hd
      rw [if_pos hv] at hd
      obtain rfl := Option.some.inj hd
      exact hv
    · unfold policy_action_distribution MultivariateNormal_mk at hd
      rw [if_neg hv] at hd
      cases hd
  · by_cases hv : mvnValid mu (sigma_raw.map multi_variate_gaussian_sigma)
    · unfold MultivariateNormal_mk
      rw [if_pos hv]
      simp [hv]
    · unfold MultivariateNormal_mk
      rw [if_neg hv]
      simp [hv]
  · intro hlen
    have hv : mvnValid mu (sigma_raw.map multi_variate_gaussian_sigma) := by
      refine ⟨by simp [hlen], fun d hd => lt_trans (by norm_num) (hpos d hd)⟩
    unfold policy_action_distribution MultivariateNormal_mk
    rw [if_pos hv]
    rfl

/-- Concrete instance of claim C7: matching shapes construct successfully. -/
theorem C7_sigma_positive_and_validated_witness :
    (policy_action_distribution [0] [0]).isSome = true :=
  (C7_sigma_positive_and_validated [0] [0]).2.2.2 rfl

/--
Claim C8: every component of the mean kept by the policy wrapper — the raw
network mean clamped to `[-1, 1]`, squeezed, and possibly promoted back to
a 1-element vector — lies in `[-1, 1]`.
-/
theorem C8_policy_mean_clamped (mu : TorchTensor) :
    ∀ x ∈ (multi_variate_gaussian_mu mu).data, -1 ≤ x ∧ x ≤ 1 := by
  intro x hx
  have hdata : (multi_variate_gaussian_mu mu).data =
      mu.data.map (fun v => clamp v (-1) 1) := by
    simp [multi_variate_gaussian_mu, TorchTensor.squeeze, TorchTensor.unsqueeze0,
      apply_ite TorchTensor.data]
  rw [hdata] at hx
  obtain ⟨v, hv, rfl⟩ := List.mem_map.mp hx
  exact ⟨le_min (le_max_right v (-1)) (by norm_num), min_le_right _ _⟩

/-- Concrete instance of claim C8 at the raw mean `[2, -2, 0]`. -/
theorem C8_policy_mean_clamped_witness :
    (multi_variate_gaussian_mu { shape := [3], data := [2, -2, 0] }).data =
      [1, -1, 0] ∧
    (-1 ≤ (1 : ℚ) ∧ (1 : ℚ) ≤ 1) := by
  have hdata : (multi_variate_gaussian_mu { shape := [3], data := [2, -2, 0] }).data =
      [1, -1, 0] := by
    norm_num [multi_variate_gaussian_mu, TorchTensor.squeeze, TorchTensor.unsqueeze0,
      apply_ite TorchTensor.data, clamp, min_def, max_def]
  exact ⟨hdata,
    C8_policy_mean_clamped { shape := [3], data := [2, -2, 0] } 1
      (by rw [hdata]; simp)⟩

/--
Claim C9 is false as stated: with threshold 2 and a four-step episode, the
code calls `learn` at steps 2, 3 and 4 (`step_num >= thresh or done` holds
at every step from the threshold on), whereas the claimed pattern — first
threshold hit or termination, whichever comes first, and at no other step —
fires only at steps 2 and 4.
-/
theorem C9_trigger_pattern_counterexample :
    (run_episode 2 [(0, false), (0, false), (0, false), (0, true)]).fired =
        [false, true, true, true] ∧
    claimedTriggerPattern 2 4 = [false, true, false, true] ∧
    (run_episode 2 [(0, false), (0, false), (0, false), (0, true)]).fired ≠
      claimedTriggerPattern 2 4 := by
  decide

/--
Claim C9 (amended): in the n-step loop a learning update fires at a step
iff the accumulated step count at that step is at or above the configured
threshold, or the episode terminates at that step — i.e. at every step from
the threshold onward, not only at the first of the two events.
-/
theorem C9_trigger_fires_iff_at_or_above_threshold (thresh : ℕ)
    (outcomes : List (ℚ × Bool)) :
    (run_episode thresh outcomes).fired = firedSpec thresh 0 outcomes := by
  unfold run_episode
  rw [run_inner_fired]
  rfl

/--
Claim C10: `calculate_n_step_return` returns exactly one return per input
reward (empty rewards give the empty list even when not terminal — the
bootstrap value is discarded, never returned on its own), and index 0
carries the return of the earliest step: the discounted sum of all rewards
plus `γ^n` times the bootstrap.
-/
theorem C10_n_step_return_length (γ v : ℚ) (rs : List ℚ) (done : Bool) :
    (calculate_n_step_return γ rs v done).length = rs.length ∧
    calculate_n_step_return γ ([] : List ℚ) v false = [] ∧
    (0 < rs.length →
      (calculate_n_step_return γ rs v done).getD 0 0 =
        discountedSum γ rs + γ ^ rs.length * (if done then 0 else v)) := by
  refine ⟨?_, rfl, ?_⟩
  · rw [calculate_n_step_return_eq_spec]
    exact nStepReturnsSpec_length γ _ rs
  · intro h
    rw [calculate_n_step_return_eq_spec, nStepReturnsSpec_getD γ _ rs 0 h]
    simp

/-- Concrete instance of claim C10: the spec scenario `rewards = [2]`, `γ = 0.9`, `V(final) = 10`, not terminal, giving the single return `11`. -/
theorem C10_n_step_return_length_witness :
    calculate_n_step_return (9/10) [2] 10 false = [11] ∧
    (calculate_n_step_return (9/10) [2] 10 false).getD 0 0 =
      discountedSum (9/10) [2] +
        (9/10) ^ ([2] : List ℚ).length * (if false then 0 else 10) :=
  ⟨by norm_num [calculate_n_step_return, n_step_loop],
   (C10_n_step_return_length (9/10) 10 [2] false).2.2 (by decide)⟩

end DeepACAgent
